import Mathlib

/-!
Verification of the Life-Pro-Tips domain logic (reputation engine, vote
toggle state machine, permission gates, guest-name middleware), shallowly
embedded from `src/ex/models.py`, `src/ex/views.py` and
`src/ex/middleware.py`.

Users are identified by natural-number ids.  A `Tip` carries its author's
id and the two many-to-many voter sets (`upvotes`, `downvotes`) as finite
sets of user ids, mirroring the Django `ManyToManyField`s.  The mutable
world is a `State`: the list of tip rows plus, per user id, the stored
`reputation` column and the immutable `is_superuser` flag.
-/

set_option autoImplicit false

namespace LifeProTips

/-- A row of the `Tip` table (`models.py`): content, author (user id),
upvoter set and downvoter set.  The `date` column plays no role in any
claim and is omitted. -/
structure Tip where
  id : Nat
  content : String
  author : Nat
  upvotes : Finset Nat
  downvotes : Finset Nat
deriving DecidableEq

/-- The persistent state: the `Tip` rows, the stored `reputation` column
(an integer, `models.IntegerField(default=0)`) and the `is_superuser`
flag per user id. -/
structure State where
  tips : List Tip
  rep : Nat → Int
  su : Nat → Bool

/-- The contribution of one tip to its author's raw reputation tally:
`tip.upvotes.count() * 5 - tip.downvotes.count() * 2`
(the loop body of `CustomUser.update_reputation`). -/
def tipScore (t : Tip) : Int :=
  5 * (t.upvotes.card : Int) - 2 * (t.downvotes.card : Int)

/-- The raw (unclamped) reputation tally of user `u` over a list of tip
rows: the sum of `tipScore` over the tips authored by `u`
(`for tip in self.tips.all(): ...` in `CustomUser.update_reputation`). -/
def userScore (tips : List Tip) (u : Nat) : Int :=
  ((tips.filter fun t => t.author == u).map tipScore).sum

/-- `CustomUser.update_reputation` (`models.py` lines 15-21): recompute
the raw tally over the user's tips, clamp with `max(reputation, 0)`, and
persist it as the stored reputation. -/
def update_reputation (s : State) (u : Nat) : State :=
  { s with rep := fun x => if x = u then max (userScore s.tips u) 0 else s.rep x }

/-- `CustomUser.can_downvote` (`models.py`):
`self.reputation >= 15 or self.is_superuser`. -/
def can_downvote (s : State) (u : Nat) : Bool :=
  decide (15 ≤ s.rep u) || s.su u

/-- `CustomUser.can_delete_tips` (`models.py`):
`self.reputation >= 30 or self.is_superuser`. -/
def can_delete_tips (s : State) (u : Nat) : Bool :=
  decide (30 ≤ s.rep u) || s.su u

/-- `get_object_or_404(Tip, id=tip_id)`: the first tip row with the given
id, if any. -/
def findTip (s : State) (tid : Nat) : Option Tip :=
  s.tips.find? fun t => t.id == tid

/-- Replace the first tip row whose id is `tid` by `nt` (the ORM writes
back the single row loaded by `get_object_or_404`). -/
def updateTip : List Tip → Nat → Tip → List Tip
  | [], _, _ => []
  | t :: ts, tid, nt => if t.id == tid then nt :: ts else t :: updateTip ts tid nt

/-- `if request.user in tip.downvotes.all(): tip.downvotes.remove(request.user)`
(first statement of the `upvote_tip` body). -/
def clearDownvote (tip : Tip) (v : Nat) : Tip :=
  if v ∈ tip.downvotes then { tip with downvotes := tip.downvotes.erase v } else tip

/-- `if request.user in tip.upvotes.all(): tip.upvotes.remove(request.user)`
(first statement of the permitted branch of `downvote_tip`). -/
def clearUpvote (tip : Tip) (v : Nat) : Tip :=
  if v ∈ tip.upvotes then { tip with upvotes := tip.upvotes.erase v } else tip

/-- The `if/else` of `upvote_tip`: remove the voter from `upvotes` if
present, otherwise add them. -/
def toggleUpvote (tip : Tip) (v : Nat) : Tip :=
  if v ∈ tip.upvotes then { tip with upvotes := tip.upvotes.erase v }
  else { tip with upvotes := insert v tip.upvotes }

/-- The `if/else` of `downvote_tip`: remove the voter from `downvotes` if
present, otherwise add them. -/
def toggleDownvote (tip : Tip) (v : Nat) : Tip :=
  if v ∈ tip.downvotes then { tip with downvotes := tip.downvotes.erase v }
  else { tip with downvotes := insert v tip.downvotes }

/-- The vote-set mutation of `upvote_tip` (`views.py` lines 36-41): clear
any downvote by the voter, then toggle their upvote. -/
def applyUpvoteToTip (tip : Tip) (v : Nat) : Tip :=
  toggleUpvote (clearDownvote tip v) v

/-- The vote-set mutation of the permitted branch of `downvote_tip`
(`views.py` lines 49-54): clear any upvote by the voter, then toggle
their downvote. -/
def applyDownvoteToTip (tip : Tip) (v : Nat) : Tip :=
  toggleDownvote (clearUpvote tip v) v

/-- Outcome of a view on an existing tip: the resulting state, and
whether the view answered `HttpResponseForbidden` (in which case the
state is whatever it was before). -/
structure Resp where
  state : State
  forbidden : Bool

/-- `upvote_tip` (`views.py` lines 33-43): load the tip (404 → `none`),
toggle the voter's upvote (clearing any downvote first), then
`tip.author.update_reputation()`. -/
def upvote_tip (s : State) (voter tid : Nat) : Option Resp :=
  (findTip s tid).map fun tip =>
    let tip2 := applyUpvoteToTip tip voter
    let s1 := { s with tips := updateTip s.tips tid tip2 }
    { state := update_reputation s1 tip.author, forbidden := false }

/-- `downvote_tip` (`views.py` lines 45-58): load the tip; if the voter
is the author or `can_downvote`, toggle the downvote (clearing any upvote
first) and recompute the author's reputation; otherwise answer
`HttpResponseForbidden` and mutate nothing. -/
def downvote_tip (s : State) (voter tid : Nat) : Option Resp :=
  (findTip s tid).map fun tip =>
    if voter == tip.author || can_downvote s voter then
      let tip2 := applyDownvoteToTip tip voter
      let s1 := { s with tips := updateTip s.tips tid tip2 }
      { state := update_reputation s1 tip.author, forbidden := false }
    else
      { state := s, forbidden := true }

/-- `delete_tip` (`views.py` lines 60-67) together with `Tip.delete`
(`models.py` lines 38-41): load the tip; if the requester is the author
or `can_delete_tips`, remove the row and then recompute the author's
reputation over the remaining tips; otherwise answer
`HttpResponseForbidden` and mutate nothing. -/
def delete_tip (s : State) (requester tid : Nat) : Option Resp :=
  (findTip s tid).map fun tip =>
    if requester == tip.author || can_delete_tips s requester then
      let s1 := { s with tips := s.tips.eraseP fun t => t.id == tid }
      { state := update_reputation s1 tip.author, forbidden := false }
    else
      { state := s, forbidden := true }

/-- Tip creation (`HomePageView.post` plus `Tip.save`, `models.py` lines
34-36): append a new row with empty vote sets, then
`self.author.update_reputation()`. -/
def create_tip (s : State) (author tid : Nat) (content : String) : State :=
  let s1 := { s with
    tips := s.tips ++ [{ id := tid, content := content, author := author,
                         upvotes := ∅, downvotes := ∅ }] }
  update_reputation s1 author

/-- One client-driven mutating operation against the board. -/
inductive Op where
  | create (author tid : Nat) (content : String)
  | up (voter tid : Nat)
  | down (voter tid : Nat)
  | del (requester tid : Nat)
deriving DecidableEq

/-- Whether an operation is one of the two vote toggles. -/
def Op.isVote : Op → Bool
  | .up _ _ => true
  | .down _ _ => true
  | _ => false

/-- Execute one operation; a missing tip (HTTP 404) or a refused request
(HTTP 403) leaves the state as it was. -/
def applyOp (s : State) : Op → State
  | .create a tid c => create_tip s a tid c
  | .up v tid =>
      match upvote_tip s v tid with
      | some r => r.state
      | none => s
  | .down v tid =>
      match downvote_tip s v tid with
      | some r => r.state
      | none => s
  | .del v tid =>
      match delete_tip s v tid with
      | some r => r.state
      | none => s

/-- Execute a finite sequence of operations in order. -/
def runOps (s : State) (ops : List Op) : State :=
  ops.foldl applyOp s

/-- The per-tip invariant of the spec: no user is in both voter sets. -/
def disjointVotes (t : Tip) : Prop :=
  ∀ v ∈ t.upvotes, v ∉ t.downvotes

instance (t : Tip) : Decidable (disjointVotes t) :=
  inferInstanceAs (Decidable (∀ v ∈ t.upvotes, v ∉ t.downvotes))

/-- A cookie set on the response, as in
`response.set_cookie('defaultName', username, max_age=42)`. -/
structure GuestCookie where
  name : String
  value : String
  max_age : Nat
deriving DecidableEq

/-- `random.choice(settings.NAMES_LIST)` with its `except` clause
(`middleware.py`): `none` models a missing `NAMES_LIST` setting
(`AttributeError`), `some []` an empty list (`IndexError`); both fall
back to `"defaultName"`.  The argument `r` models the randomness as an
arbitrary index. -/
def pickGuestName : Option (List String) → Nat → String
  | none, _ => "defaultName"
  | some [], _ => "defaultName"
  | some (x :: xs), r => (x :: xs).getD (r % (x :: xs).length) x

/-- `UsernameMiddleware.__call__` (`middleware.py` lines 9-26), viewed as
the pair (display name given to the request, cookie set on the
response).  With an existing `defaultName` cookie the stored value is
reused and no cookie is set; otherwise a guest name is picked and stored
in a cookie with `max_age=42`. -/
def usernameMiddleware (existingCookie : Option String)
    (namesList : Option (List String)) (r : Nat) : String × Option GuestCookie :=
  match existingCookie with
  | some v => (v, none)
  | none =>
      let username := pickGuestName namesList r
      (username, some { name := "defaultName", value := username, max_age := 42 })

/-! ### Concrete example states used to instantiate the theorems -/

/-- User 1 authored three tips with (upvotes, downvotes) counts
(2,0), (1,1) and (0,3). -/
def exThreeTips : State :=
  { tips := [⟨0, "a", 1, {10, 11}, ∅⟩, ⟨1, "b", 1, {10}, {11}⟩,
             ⟨2, "c", 1, ∅, {10, 11, 12}⟩],
    rep := fun _ => 0, su := fun _ => false }

/-- A state with no tips at all. -/
def exNoTips : State := { tips := [], rep := fun _ => 5, su := fun _ => false }

/-- A single tip by user 1 with no votes yet. -/
def exTip0 : Tip := ⟨0, "t", 1, ∅, ∅⟩

/-- One unvoted tip by user 1; every user has reputation 14, nobody is a
superuser. -/
def exDown14 : State := { tips := [exTip0], rep := fun _ => 14, su := fun _ => false }

/-- One unvoted tip by user 1; every user has reputation 15, nobody is a
superuser. -/
def exDown15 : State := { tips := [exTip0], rep := fun _ => 15, su := fun _ => false }

/-- One unvoted tip by user 1; every user has reputation 29, nobody is a
superuser. -/
def exDel29 : State := { tips := [exTip0], rep := fun _ => 29, su := fun _ => false }

/-- One unvoted tip by user 1; every user has reputation 30, nobody is a
superuser. -/
def exDel30 : State := { tips := [exTip0], rep := fun _ => 30, su := fun _ => false }

/-- User 1 authored a single tip with no upvotes and 20 downvotes, for a
raw tally of -40. -/
def exClampState : State :=
  { tips := [⟨0, "t", 1, ∅, Finset.range 20⟩], rep := fun _ => 0, su := fun _ => false }

/-- A tip by user 1 with no upvotes and three downvotes (raw tally -6,
stored reputation clamped to 0). -/
def exC9Tip : Tip := ⟨0, "t", 1, ∅, {2, 3, 4}⟩

/-- The state holding only `exC9Tip`; user 1's stored reputation 0 is
consistent with the clamped tally. -/
def exC9State : State := { tips := [exC9Tip], rep := fun _ => 0, su := fun _ => false }

/-- A tip by user 1 already upvoted by user 2 (raw tally 5). -/
def exC9WTip : Tip := ⟨0, "w", 1, {2}, ∅⟩

/-- The state holding only `exC9WTip`, with user 1's stored reputation 5
equal to the raw tally. -/
def exC9W : State :=
  { tips := [exC9WTip], rep := fun x => if x = 1 then 5 else 0, su := fun _ => false }

/-! ### Helper lemmas about the vote-set toggles -/

lemma clearDownvote_id (tip : Tip) (v : Nat) : (clearDownvote tip v).id = tip.id := by
  unfold clearDownvote; split <;> rfl

lemma clearDownvote_author (tip : Tip) (v : Nat) :
    (clearDownvote tip v).author = tip.author := by
  unfold clearDownvote; split <;> rfl

lemma clearDownvote_upvotes (tip : Tip) (v : Nat) :
    (clearDownvote tip v).upvotes = tip.upvotes := by
  unfold clearDownvote; split <;> rfl

lemma clearDownvote_downvotes (tip : Tip) (v : Nat) :
    (clearDownvote tip v).downvotes = tip.downvotes.erase v := by
  unfold clearDownvote; split
  · rfl
  · exact (Finset.erase_eq_of_not_mem (by assumption)).symm

lemma clearUpvote_id (tip : Tip) (v : Nat) : (clearUpvote tip v).id = tip.id := by
  unfold clearUpvote; split <;> rfl

lemma clearUpvote_author (tip : Tip) (v : Nat) :
    (clearUpvote tip v).author = tip.author := by
  unfold clearUpvote; split <;> rfl

lemma clearUpvote_downvotes (tip : Tip) (v : Nat) :
    (clearUpvote tip v).downvotes = tip.downvotes := by
  unfold clearUpvote; split <;> rfl

lemma clearUpvote_upvotes (tip : Tip) (v : Nat) :
    (clearUpvote tip v).upvotes = tip.upvotes.erase v := by
  unfold clearUpvote; split
  · rfl
  · exact (Finset.erase_eq_of_not_mem (by assumption)).symm

lemma toggleUpvote_id (tip : Tip) (v : Nat) : (toggleUpvote tip v).id = tip.id := by
  unfold toggleUpvote; split <;> rfl

lemma toggleUpvote_author (tip : Tip) (v : Nat) :
    (toggleUpvote tip v).author = tip.author := by
  unfold toggleUpvote; split <;> rfl

lemma toggleUpvote_downvotes (tip : Tip) (v : Nat) :
    (toggleUpvote tip v).downvotes = tip.downvotes := by
  unfold toggleUpvote; split <;> rfl

lemma toggleUpvote_upvotes (tip : Tip) (v : Nat) :
    (toggleUpvote tip v).upvotes =
      if v ∈ tip.upvotes then tip.upvotes.erase v else insert v tip.upvotes := by
  unfold toggleUpvote; split <;> simp [*]

lemma toggleDownvote_id (tip : Tip) (v : Nat) : (toggleDownvote tip v).id = tip.id := by
  unfold toggleDownvote; split <;> rfl

lemma toggleDownvote_author (tip : Tip) (v : Nat) :
    (toggleDownvote tip v).author = tip.author := by
  unfold toggleDownvote; split <;> rfl

lemma toggleDownvote_upvotes (tip : Tip) (v : Nat) :
    (toggleDownvote tip v).upvotes = tip.upvotes := by
  unfold toggleDownvote; split <;> rfl

lemma toggleDownvote_downvotes (tip : Tip) (v : Nat) :
    (toggleDownvote tip v).downvotes =
      if v ∈ tip.downvotes then tip.downvotes.erase v else insert v tip.downvotes := by
  unfold toggleDownvote; split <;> simp [*]

lemma applyUpvoteToTip_id (tip : Tip) (v : Nat) :
    (applyUpvoteToTip tip v).id = tip.id := by
  rw [applyUpvoteToTip, toggleUpvote_id, clearDownvote_id]

lemma applyUpvoteToTip_author (tip : Tip) (v : Nat) :
    (applyUpvoteToTip tip v).author = tip.author := by
  rw [applyUpvoteToTip, toggleUpvote_author, clearDownvote_author]

lemma applyUpvoteToTip_upvotes (tip : Tip) (v : Nat) :
    (applyUpvoteToTip tip v).upvotes =
      if v ∈ tip.upvotes then tip.upvotes.erase v else insert v tip.upvotes := by
  rw [applyUpvoteToTip, toggleUpvote_upvotes, clearDownvote_upvotes]

lemma applyUpvoteToTip_downvotes (tip : Tip) (v : Nat) :
    (applyUpvoteToTip tip v).downvotes = tip.downvotes.erase v := by
  rw [applyUpvoteToTip, toggleUpvote_downvotes, clearDownvote_downvotes]

lemma applyDownvoteToTip_id (tip : Tip) (v : Nat) :
    (applyDownvoteToTip tip v).id = tip.id := by
  rw [applyDownvoteToTip, toggleDownvote_id, clearUpvote_id]

lemma applyDownvoteToTip_author (tip : Tip) (v : Nat) :
    (applyDownvoteToTip tip v).author = tip.author := by
  rw [applyDownvoteToTip, toggleDownvote_author, clearUpvote_author]

lemma applyDownvoteToTip_downvotes (tip : Tip) (v : Nat) :
    (applyDownvoteToTip tip v).downvotes =
      if v ∈ tip.downvotes then tip.downvotes.erase v else insert v tip.downvotes := by
  rw [applyDownvoteToTip, toggleDownvote_downvotes, clearUpvote_downvotes]

lemma applyDownvoteToTip_upvotes (tip : Tip) (v : Nat) :
    (applyDownvoteToTip tip v).upvotes = tip.upvotes.erase v := by
  rw [applyDownvoteToTip, toggleDownvote_upvotes, clearUpvote_upvotes]

/-! ### Helper lemmas about `findTip`, `updateTip`, `userScore` and the
reputation recomputation -/

lemma findTip_mem {s : State} {tid : Nat} {tip : Tip}
    (hf : findTip s tid = some tip) : tip ∈ s.tips :=
  List.mem_of_find?_eq_some hf

lemma findTip_id {s : State} {tid : Nat} {tip : Tip}
    (hf : findTip s tid = some tip) : tip.id = tid := by
  have := List.find?_some hf
  simpa using this

lemma mem_updateTip {tips : List Tip} {tid : Nat} {nt t : Tip}
    (h : t ∈ updateTip tips tid nt) : t ∈ tips ∨ t = nt := by
  induction tips with
  | nil => simp [updateTip] at h
  | cons a as ih =>
    rw [updateTip] at h
    split at h
    · rcases List.mem_cons.mp h with h | h
      · exact Or.inr h
      · exact Or.inl (List.mem_cons_of_mem a h)
    · rcases List.mem_cons.mp h with h | h
      · exact Or.inl (h ▸ List.mem_cons_self a _)
      · rcases ih h with h | h
        · exact Or.inl (List.mem_cons_of_mem a h)
        · exact Or.inr h

lemma find_updateTip {tips : List Tip} {tid : Nat} {tip nt : Tip}
    (hf : tips.find? (fun t => t.id == tid) = some tip) (hid : nt.id = tid) :
    (updateTip tips tid nt).find? (fun t => t.id == tid) = some nt := by
  induction tips with
  | nil => simp at hf
  | cons a as ih =>
    rw [updateTip]
    by_cases h : (a.id == tid) = true
    · rw [if_pos h]
      exact List.find?_cons_of_pos _ (by simpa using hid)
    · rw [if_neg h]
      have e1 : List.find? (fun t => t.id == tid) (a :: as) =
          List.find? (fun t => t.id == tid) as :=
        List.find?_cons_of_neg _ h
      have e2 : List.find? (fun t => t.id == tid) (a :: updateTip as tid nt) =
          List.find? (fun t => t.id == tid) (updateTip as tid nt) :=
        List.find?_cons_of_neg _ h
      rw [e2]
      exact ih (e1 ▸ hf)

lemma tips_update_reputation (s : State) (u : Nat) :
    (update_reputation s u).tips = s.tips := rfl

lemma rep_update_reputation_self (s : State) (u : Nat) :
    (update_reputation s u).rep u = max (userScore s.tips u) 0 := by
  simp [update_reputation]

lemma rep_update_reputation_nonneg (s : State) (w x : Nat) (h : 0 ≤ s.rep x) :
    0 ≤ (update_reputation s w).rep x := by
  unfold update_reputation
  dsimp only
  split
  · exact le_max_right _ _
  · exact h

lemma userScore_cons (a : Tip) (l : List Tip) (u : Nat) :
    userScore (a :: l) u = (if a.author = u then tipScore a else 0) + userScore l u := by
  unfold userScore
  rw [List.filter_cons]
  by_cases h : a.author = u
  · simp [h]
  · simp [h]

lemma userScore_updateTip (tips : List Tip) (tid : Nat) (tip nt : Tip) (u : Nat)
    (hf : tips.find? (fun t => t.id == tid) = some tip) (ha : nt.author = tip.author) :
    userScore (updateTip tips tid nt) u =
      userScore tips u + (if tip.author = u then tipScore nt - tipScore tip else 0) := by
  induction tips with
  | nil => simp at hf
  | cons a as ih =>
    by_cases h : (a.id == tid) = true
    · have e : List.find? (fun t => t.id == tid) (a :: as) = some a :=
        List.find?_cons_of_pos _ h
      rw [e] at hf
      injection hf with hf
      subst hf
      rw [updateTip, if_pos h, userScore_cons, userScore_cons, ha]
      by_cases hau : a.author = u
      · rw [if_pos hau, if_pos hau, if_pos hau]; ring
      · rw [if_neg hau, if_neg hau, if_neg hau]; ring
    · have e : List.find? (fun t => t.id == tid) (a :: as) =
          List.find? (fun t => t.id == tid) as :=
        List.find?_cons_of_neg _ h
      rw [e] at hf
      rw [updateTip, if_neg h, userScore_cons, userScore_cons, ih hf]
      ring

/-! ### Equation lemmas for the three views on an existing tip -/

lemma upvote_tip_eq (s : State) (v tid : Nat) (tip : Tip)
    (hf : findTip s tid = some tip) :
    upvote_tip s v tid = some
      { state := update_reputation
          { s with tips := updateTip s.tips tid (applyUpvoteToTip tip v) } tip.author,
        forbidden := false } := by
  unfold upvote_tip
  rw [hf]
  rfl

lemma downvote_tip_eq_allowed (s : State) (v tid : Nat) (tip : Tip)
    (hf : findTip s tid = some tip)
    (hg : (v == tip.author || can_downvote s v) = true) :
    downvote_tip s v tid = some
      { state := update_reputation
          { s with tips := updateTip s.tips tid (applyDownvoteToTip tip v) } tip.author,
        forbidden := false } := by
  unfold downvote_tip
  rw [hf, Option.map_some', if_pos hg]

lemma downvote_tip_eq_refused (s : State) (v tid : Nat) (tip : Tip)
    (hf : findTip s tid = some tip)
    (hg : ¬ (v == tip.author || can_downvote s v) = true) :
    downvote_tip s v tid = some { state := s, forbidden := true } := by
  unfold downvote_tip
  rw [hf, Option.map_some', if_neg hg]

lemma delete_tip_eq_allowed (s : State) (v tid : Nat) (tip : Tip)
    (hf : findTip s tid = some tip)
    (hg : (v == tip.author || can_delete_tips s v) = true) :
    delete_tip s v tid = some
      { state := update_reputation
          { s with tips := s.tips.eraseP fun t => t.id == tid } tip.author,
        forbidden := false } := by
  unfold delete_tip
  rw [hf, Option.map_some', if_pos hg]

lemma delete_tip_eq_refused (s : State) (v tid : Nat) (tip : Tip)
    (hf : findTip s tid = some tip)
    (hg : ¬ (v == tip.author || can_delete_tips s v) = true) :
    delete_tip s v tid = some { state := s, forbidden := true } := by
  unfold delete_tip
  rw [hf, Option.map_some', if_neg hg]

lemma findTip_set (s : State) (tid : Nat) (tip nt : Tip) (u : Nat)
    (hf : findTip s tid = some tip) (hid : nt.id = tid) :
    findTip (update_reputation { s with tips := updateTip s.tips tid nt } u) tid =
      some nt := by
  unfold findTip at hf ⊢
  exact find_updateTip hf hid

lemma upvote_tip_none (s : State) (v tid : Nat) (hf : findTip s tid = none) :
    upvote_tip s v tid = none := by
  unfold upvote_tip; rw [hf]; rfl

lemma downvote_tip_none (s : State) (v tid : Nat) (hf : findTip s tid = none) :
    downvote_tip s v tid = none := by
  unfold downvote_tip; rw [hf]; rfl

lemma delete_tip_none (s : State) (v tid : Nat) (hf : findTip s tid = none) :
    delete_tip s v tid = none := by
  unfold delete_tip; rw [hf]; rfl

lemma applyOp_up (s : State) (v tid : Nat) :
    applyOp s (Op.up v tid) =
      match upvote_tip s v tid with
      | some r => r.state
      | none => s := rfl

lemma applyOp_down (s : State) (v tid : Nat) :
    applyOp s (Op.down v tid) =
      match downvote_tip s v tid with
      | some r => r.state
      | none => s := rfl

lemma applyOp_del (s : State) (v tid : Nat) :
    applyOp s (Op.del v tid) =
      match delete_tip s v tid with
      | some r => r.state
      | none => s := rfl

/-! ### Preservation lemmas for the operation semantics -/

lemma disjointVotes_applyUpvoteToTip (tip : Tip) (v : Nat) (h : disjointVotes tip) :
    disjointVotes (applyUpvoteToTip tip v) := by
  intro u hu
  rw [applyUpvoteToTip_downvotes]
  rw [applyUpvoteToTip_upvotes] at hu
  split at hu
  · exact fun hc => h u (Finset.mem_of_mem_erase hu) (Finset.mem_of_mem_erase hc)
  · rcases Finset.mem_insert.mp hu with rfl | hmem
    · exact Finset.not_mem_erase u _
    · exact fun hc => h u hmem (Finset.mem_of_mem_erase hc)

lemma disjointVotes_applyDownvoteToTip (tip : Tip) (v : Nat) (h : disjointVotes tip) :
    disjointVotes (applyDownvoteToTip tip v) := by
  intro u hu
  rw [applyDownvoteToTip_upvotes] at hu
  rw [applyDownvoteToTip_downvotes]
  have hu' := Finset.mem_of_mem_erase hu
  have hne : u ≠ v := (Finset.mem_erase.mp hu).1
  split
  · exact fun hc => h u hu' (Finset.mem_of_mem_erase hc)
  · intro hc
    rcases Finset.mem_insert.mp hc with rfl | hmem
    · exact hne rfl
    · exact h u hu' hmem

lemma mem_tips_applyOp {s : State} {o : Op} {t : Tip} (h : t ∈ (applyOp s o).tips) :
    t ∈ s.tips ∨
      (∃ t0 ∈ s.tips, ∃ v, t = applyUpvoteToTip t0 v ∨ t = applyDownvoteToTip t0 v) ∨
      (t.upvotes = ∅ ∧ t.downvotes = ∅) := by
  cases o with
  | create a tid c =>
    rcases List.mem_append.mp h with h | h
    · exact Or.inl h
    · refine Or.inr (Or.inr ?_)
      rcases List.mem_singleton.mp h with rfl
      exact ⟨rfl, rfl⟩
  | up v tid =>
    cases hf : findTip s tid with
    | none =>
      rw [show applyOp s (Op.up v tid) = s by
        rw [applyOp_up, upvote_tip_none s v tid hf]] at h
      exact Or.inl h
    | some tip =>
      rw [show applyOp s (Op.up v tid) = update_reputation
          { s with tips := updateTip s.tips tid (applyUpvoteToTip tip v) } tip.author by
        rw [applyOp_up, upvote_tip_eq s v tid tip hf]] at h
      rcases mem_updateTip h with h | rfl
      · exact Or.inl h
      · exact Or.inr (Or.inl ⟨tip, findTip_mem hf, v, Or.inl rfl⟩)
  | down v tid =>
    cases hf : findTip s tid with
    | none =>
      rw [show applyOp s (Op.down v tid) = s by
        rw [applyOp_down, downvote_tip_none s v tid hf]] at h
      exact Or.inl h
    | some tip =>
      by_cases hg : (v == tip.author || can_downvote s v) = true
      · rw [show applyOp s (Op.down v tid) = update_reputation
            { s with tips := updateTip s.tips tid (applyDownvoteToTip tip v) } tip.author by
          rw [applyOp_down, downvote_tip_eq_allowed s v tid tip hf hg]] at h
        rcases mem_updateTip h with h | rfl
        · exact Or.inl h
        · exact Or.inr (Or.inl ⟨tip, findTip_mem hf, v, Or.inr rfl⟩)
      · rw [show applyOp s (Op.down v tid) = s by
          rw [applyOp_down, downvote_tip_eq_refused s v tid tip hf hg]] at h
        exact Or.inl h
  | del v tid =>
    cases hf : findTip s tid with
    | none =>
      rw [show applyOp s (Op.del v tid) = s by
        rw [applyOp_del, delete_tip_none s v tid hf]] at h
      exact Or.inl h
    | some tip =>
      by_cases hg : (v == tip.author || can_delete_tips s v) = true
      · rw [show applyOp s (Op.del v tid) = update_reputation
            { s with tips := s.tips.eraseP fun t => t.id == tid } tip.author by
          rw [applyOp_del, delete_tip_eq_allowed s v tid tip hf hg]] at h
        exact Or.inl (List.mem_of_mem_eraseP h)
      · rw [show applyOp s (Op.del v tid) = s by
          rw [applyOp_del, delete_tip_eq_refused s v tid tip hf hg]] at h
        exact Or.inl h

lemma disjoint_applyOp {s : State} (o : Op)
    (h : ∀ t ∈ s.tips, disjointVotes t) :
    ∀ t ∈ (applyOp s o).tips, disjointVotes t := by
  intro t ht
  rcases mem_tips_applyOp ht with hmem | ⟨t0, ht0, v, rfl | rfl⟩ | ⟨hup, _⟩
  · exact h t hmem
  · exact disjointVotes_applyUpvoteToTip t0 v (h t0 ht0)
  · exact disjointVotes_applyDownvoteToTip t0 v (h t0 ht0)
  · intro u hu
    rw [hup] at hu
    simp at hu

lemma disjoint_runOps {s : State} (ops : List Op)
    (h : ∀ t ∈ s.tips, disjointVotes t) :
    ∀ t ∈ (runOps s ops).tips, disjointVotes t := by
  induction ops generalizing s with
  | nil => exact h
  | cons o os ih =>
    show ∀ t ∈ (runOps (applyOp s o) os).tips, disjointVotes t
    exact ih (disjoint_applyOp o h)

lemma rep_nonneg_applyOp {s : State} (o : Op) (h : ∀ u, 0 ≤ s.rep u) :
    ∀ u, 0 ≤ (applyOp s o).rep u := by
  intro u
  cases o with
  | create a tid c =>
    exact rep_update_reputation_nonneg _ _ _ (h u)
  | up v tid =>
    cases hf : findTip s tid with
    | none =>
      rw [show applyOp s (Op.up v tid) = s by
        rw [applyOp_up, upvote_tip_none s v tid hf]]
      exact h u
    | some tip =>
      rw [show applyOp s (Op.up v tid) = update_reputation
          { s with tips := updateTip s.tips tid (applyUpvoteToTip tip v) } tip.author by
        rw [applyOp_up, upvote_tip_eq s v tid tip hf]]
      exact rep_update_reputation_nonneg _ _ _ (h u)
  | down v tid =>
    cases hf : findTip s tid with
    | none =>
      rw [show applyOp s (Op.down v tid) = s by
        rw [applyOp_down, downvote_tip_none s v tid hf]]
      exact h u
    | some tip =>
      by_cases hg : (v == tip.author || can_downvote s v) = true
      · rw [show applyOp s (Op.down v tid) = update_reputation
            { s with tips := updateTip s.tips tid (applyDownvoteToTip tip v) } tip.author by
          rw [applyOp_down, downvote_tip_eq_allowed s v tid tip hf hg]]
        exact rep_update_reputation_nonneg _ _ _ (h u)
      · rw [show applyOp s (Op.down v tid) = s by
          rw [applyOp_down, downvote_tip_eq_refused s v tid tip hf hg]]
        exact h u
  | del v tid =>
    cases hf : findTip s tid with
    | none =>
      rw [show applyOp s (Op.del v tid) = s by
        rw [applyOp_del, delete_tip_none s v tid hf]]
      exact h u
    | some tip =>
      by_cases hg : (v == tip.author || can_delete_tips s v) = true
      · rw [show applyOp s (Op.del v tid) = update_reputation
            { s with tips := s.tips.eraseP fun t => t.id == tid } tip.author by
          rw [applyOp_del, delete_tip_eq_allowed s v tid tip hf hg]]
        exact rep_update_reputation_nonneg _ _ _ (h u)
      · rw [show applyOp s (Op.del v tid) = s by
          rw [applyOp_del, delete_tip_eq_refused s v tid tip hf hg]]
        exact h u

lemma rep_nonneg_runOps {s : State} (ops : List Op) (h : ∀ u, 0 ≤ s.rep u) :
    ∀ u, 0 ≤ (runOps s ops).rep u := by
  induction ops generalizing s with
  | nil => exact h
  | cons o os ih =>
    show ∀ u, 0 ≤ (runOps (applyOp s o) os).rep u
    exact ih (rep_nonneg_applyOp o h)

/-! ### Claim theorems -/

/-- C1: `update_reputation` stores `max(0, Σ over the user's tips of
(5·#upvoters − 2·#downvoters))`; an author with three tips scoring
(2,0), (1,1), (0,3) ends with reputation 7, and an empty tip collection
yields 0. -/
theorem update_reputation_spec :
    (∀ (s : State) (u : Nat),
      (update_reputation s u).rep u =
        max (((s.tips.filter fun t => t.author == u).map fun t =>
          5 * (t.upvotes.card : Int) - 2 * (t.downvotes.card : Int)).sum) 0) ∧
    (update_reputation exThreeTips 1).rep 1 = 7 ∧
    (∀ (s : State) (u : Nat), s.tips.filter (fun t => t.author == u) = [] →
      (update_reputation s u).rep u = 0) := by
  refine ⟨?_, by decide, ?_⟩
  · intro s u
    rw [rep_update_reputation_self s u]
    rfl
  · intro s u h
    simp [update_reputation, userScore, tipScore, h]

/-- Witness for C1: a user with no tips ends with stored reputation 0. -/
theorem update_reputation_spec_witness : (update_reputation exNoTips 3).rep 3 = 0 :=
  update_reputation_spec.2.2 exNoTips 3 rfl

/-- C2: starting from a state whose tips all satisfy the disjointness
invariant, after any finite sequence of upvote/downvote operations by any
voters, no user is a member of both voter sets of any tip. -/
theorem vote_sets_disjoint (s : State) (ops : List Op)
    (_hvote : ∀ o ∈ ops, o.isVote = true)
    (h : ∀ t ∈ s.tips, disjointVotes t) :
    ∀ t ∈ (runOps s ops).tips, disjointVotes t :=
  fun t ht => disjoint_runOps ops h t ht

/-- Witness for C2: after an upvote then a downvote by user 2, the single
tip has user 2 in `downvotes` only and its vote sets are disjoint. -/
theorem vote_sets_disjoint_witness : disjointVotes ⟨0, "t", 1, ∅, {2}⟩ :=
  vote_sets_disjoint exDown15 [Op.up 2 0, Op.down 2 0] (by decide) (by decide)
    ⟨0, "t", 1, ∅, {2}⟩ (by decide)

/-- C3: `downvote_tip` is permitted iff the voter is the author, has
reputation at least 15, or is a superuser; when refused the state is
unchanged; reputation 14 (non-author, non-superuser) is refused, 15 is
permitted. -/
theorem downvote_permission (s : State) (v tid : Nat) (tip : Tip)
    (hf : findTip s tid = some tip) :
    ((downvote_tip s v tid).map Resp.forbidden = some false ↔
      (v = tip.author ∨ 15 ≤ s.rep v ∨ s.su v = true)) ∧
    ((downvote_tip s v tid).map Resp.forbidden = some true →
      (downvote_tip s v tid).map Resp.state = some s) ∧
    (downvote_tip exDown14 2 0).map Resp.forbidden = some true ∧
    (downvote_tip exDown15 2 0).map Resp.forbidden = some false := by
  have h14 : (downvote_tip exDown14 2 0).map Resp.forbidden = some true := by decide
  have h15 : (downvote_tip exDown15 2 0).map Resp.forbidden = some false := by decide
  by_cases hg : (v == tip.author || can_downvote s v) = true
  · rw [downvote_tip_eq_allowed s v tid tip hf hg]
    have hp : v = tip.author ∨ 15 ≤ s.rep v ∨ s.su v = true := by
      simpa [can_downvote, Bool.or_eq_true, beq_iff_eq, decide_eq_true_eq] using hg
    exact ⟨by simp [hp], by simp, h14, h15⟩
  · rw [downvote_tip_eq_refused s v tid tip hf hg]
    have hp : ¬ (v = tip.author ∨ 15 ≤ s.rep v ∨ s.su v = true) := by
      simpa [can_downvote, Bool.or_eq_true, beq_iff_eq, decide_eq_true_eq] using hg
    exact ⟨by simp [hp], by simp, h14, h15⟩

/-- Witness for C3: a non-author non-superuser with reputation 14 is
refused, with reputation 15 is permitted. -/
theorem downvote_permission_witness :
    (downvote_tip exDown14 2 0).map Resp.forbidden = some true ∧
    (downvote_tip exDown15 2 0).map Resp.forbidden = some false :=
  ⟨(downvote_permission exDown14 2 0 exTip0 rfl).2.2.1,
   (downvote_permission exDown14 2 0 exTip0 rfl).2.2.2⟩

/-- C4: `delete_tip` is permitted iff the requester is the author, has
reputation at least 30, or is a superuser; when refused the state is
unchanged; on success the tip row is removed and the author's reputation
is recomputed over the remaining tips. -/
theorem delete_permission (s : State) (v tid : Nat) (tip : Tip)
    (hf : findTip s tid = some tip) :
    ((delete_tip s v tid).map Resp.forbidden = some false ↔
      (v = tip.author ∨ 30 ≤ s.rep v ∨ s.su v = true)) ∧
    ((delete_tip s v tid).map Resp.forbidden = some true →
      (delete_tip s v tid).map Resp.state = some s) ∧
    ((delete_tip s v tid).map Resp.forbidden = some false →
      ((delete_tip s v tid).map fun r => r.state.tips) =
        some (s.tips.eraseP fun t => t.id == tid) ∧
      ((delete_tip s v tid).map fun r => r.state.rep tip.author) =
        some (max (userScore (s.tips.eraseP fun t => t.id == tid) tip.author) 0)) := by
  by_cases hg : (v == tip.author || can_delete_tips s v) = true
  · rw [delete_tip_eq_allowed s v tid tip hf hg]
    have hp : v = tip.author ∨ 30 ≤ s.rep v ∨ s.su v = true := by
      simpa [can_delete_tips, Bool.or_eq_true, beq_iff_eq, decide_eq_true_eq] using hg
    refine ⟨by simp [hp], by simp, fun _ => ⟨rfl, ?_⟩⟩
    simp only [Option.map_some', Option.some.injEq]
    exact rep_update_reputation_self _ _
  · rw [delete_tip_eq_refused s v tid tip hf hg]
    have hp : ¬ (v = tip.author ∨ 30 ≤ s.rep v ∨ s.su v = true) := by
      simpa [can_delete_tips, Bool.or_eq_true, beq_iff_eq, decide_eq_true_eq] using hg
    exact ⟨by simp [hp], by simp, by simp⟩

/-- Witness for C4: a non-author with reputation 30 is permitted to
delete. -/
theorem delete_permission_witness :
    (delete_tip exDel30 2 0).map Resp.forbidden = some false :=
  (delete_permission exDel30 2 0 exTip0 rfl).1.mpr (Or.inr (Or.inl (by decide)))

/-- C5: from any state where every stored reputation is non-negative,
every sequence of operations (creation, upvote, downvote, deletion) keeps
every stored reputation non-negative; a raw tally of -40 (0 upvotes,
20 downvotes) is stored as exactly 0. -/
theorem reputation_nonneg (s : State) (ops : List Op) (h : ∀ u, 0 ≤ s.rep u) :
    (∀ u, 0 ≤ (runOps s ops).rep u) ∧
    userScore exClampState.tips 1 = -40 ∧
    (update_reputation exClampState 1).rep 1 = 0 :=
  ⟨rep_nonneg_runOps ops h, by decide, by decide⟩

/-- Witness for C5: user 1's stored reputation stays non-negative after an
upvote-toggle on their heavily-downvoted tip. -/
theorem reputation_nonneg_witness : 0 ≤ (runOps exClampState [Op.up 2 0]).rep 1 :=
  (reputation_nonneg exClampState [Op.up 2 0] (fun _ => le_refl (0 : Int))).1 1

/-- C10: a request arriving without a guest-name cookie is assigned a
display-only guest name and a `defaultName` cookie holding it whose
lifetime is exactly 42 seconds. -/
theorem guest_cookie_42 (namesList : Option (List String)) (r : Nat) :
    (usernameMiddleware none namesList r).1 = pickGuestName namesList r ∧
    (usernameMiddleware none namesList r).2 =
      some { name := "defaultName", value := pickGuestName namesList r, max_age := 42 } :=
  ⟨rfl, rfl⟩

/-- C6: a voter in state NONE who upvotes a tip twice in succession is
back in state NONE: the stored tip after the second call no longer has
them in `upvotes` (nor in `downvotes`). -/
theorem double_upvote (s : State) (v tid : Nat) (tip : Tip)
    (hf : findTip s tid = some tip) (hu : v ∉ tip.upvotes) (_hd : v ∉ tip.downvotes) :
    ((upvote_tip s v tid).bind fun r1 =>
      (upvote_tip r1.state v tid).map fun r2 => findTip r2.state tid) =
      some (some (applyUpvoteToTip (applyUpvoteToTip tip v) v)) ∧
    v ∉ (applyUpvoteToTip (applyUpvoteToTip tip v) v).upvotes ∧
    v ∉ (applyUpvoteToTip (applyUpvoteToTip tip v) v).downvotes := by
  have hid1 : (applyUpvoteToTip tip v).id = tid := by
    rw [applyUpvoteToTip_id]; exact findTip_id hf
  have hf1 : findTip (update_reputation
      { s with tips := updateTip s.tips tid (applyUpvoteToTip tip v) } tip.author) tid =
      some (applyUpvoteToTip tip v) :=
    findTip_set s tid tip _ tip.author hf hid1
  refine ⟨?_, ?_, ?_⟩
  · rw [upvote_tip_eq s v tid tip hf]
    simp only [Option.some_bind]
    rw [upvote_tip_eq _ v tid _ hf1]
    simp only [Option.map_some', Option.some.injEq]
    exact findTip_set _ tid _ _ _ hf1 (by rw [applyUpvoteToTip_id]; exact hid1)
  · have hmem : v ∈ (applyUpvoteToTip tip v).upvotes := by
      rw [applyUpvoteToTip_upvotes, if_neg hu]
      exact Finset.mem_insert_self v _
    rw [applyUpvoteToTip_upvotes, if_pos hmem]
    exact Finset.not_mem_erase v _
  · rw [applyUpvoteToTip_downvotes]
    exact Finset.not_mem_erase v _

/-- Witness for C6: user 2 double-upvotes the unvoted tip and ends out of
its upvoter set. -/
theorem double_upvote_witness :
    2 ∉ (applyUpvoteToTip (applyUpvoteToTip exTip0 2) 2).upvotes :=
  (double_upvote exDown15 2 0 exTip0 rfl (by decide) (by decide)).2.1

/-- C7: a voter in state NONE who upvotes and then (passing the downvote
gate) downvotes the same tip ends in `downvotes` only. -/
theorem upvote_then_downvote (s : State) (v tid : Nat) (tip : Tip)
    (hf : findTip s tid = some tip) (_hu : v ∉ tip.upvotes) (_hd : v ∉ tip.downvotes)
    (hgate : (v == tip.author || can_downvote (update_reputation
      { s with tips := updateTip s.tips tid (applyUpvoteToTip tip v) } tip.author) v)
      = true) :
    ((upvote_tip s v tid).bind fun r1 =>
      (downvote_tip r1.state v tid).map fun r2 => (r2.forbidden, findTip r2.state tid)) =
      some (false, some (applyDownvoteToTip (applyUpvoteToTip tip v) v)) ∧
    v ∈ (applyDownvoteToTip (applyUpvoteToTip tip v) v).downvotes ∧
    v ∉ (applyDownvoteToTip (applyUpvoteToTip tip v) v).upvotes := by
  have hid1 : (applyUpvoteToTip tip v).id = tid := by
    rw [applyUpvoteToTip_id]; exact findTip_id hf
  have hf1 : findTip (update_reputation
      { s with tips := updateTip s.tips tid (applyUpvoteToTip tip v) } tip.author) tid =
      some (applyUpvoteToTip tip v) :=
    findTip_set s tid tip _ tip.author hf hid1
  have hgate' : (v == (applyUpvoteToTip tip v).author || can_downvote (update_reputation
      { s with tips := updateTip s.tips tid (applyUpvoteToTip tip v) } tip.author) v)
      = true := by
    rw [applyUpvoteToTip_author]; exact hgate
  refine ⟨?_, ?_, ?_⟩
  · rw [upvote_tip_eq s v tid tip hf]
    simp only [Option.some_bind]
    rw [downvote_tip_eq_allowed _ v tid _ hf1 hgate']
    simp only [Option.map_some', Option.some.injEq, Prod.mk.injEq]
    refine ⟨trivial, ?_⟩
    exact findTip_set _ tid _ _ _ hf1 (by rw [applyDownvoteToTip_id]; exact hid1)
  · have hnd : v ∉ (applyUpvoteToTip tip v).downvotes := by
      rw [applyUpvoteToTip_downvotes]
      exact Finset.not_mem_erase v _
    rw [applyDownvoteToTip_downvotes, if_neg hnd]
    exact Finset.mem_insert_self v _
  · rw [applyDownvoteToTip_upvotes]
    exact Finset.not_mem_erase v _

/-- Witness for C7: user 2 (reputation 15) upvotes and then downvotes the
tip and ends in its downvoter set. -/
theorem upvote_then_downvote_witness :
    2 ∈ (applyDownvoteToTip (applyUpvoteToTip exTip0 2) 2).downvotes :=
  (upvote_then_downvote exDown15 2 0 exTip0 rfl (by decide) (by decide) (by decide)).2.1

/-- C8: `upvote_tip` never answers forbidden for any authenticated voter
and always performs its toggle: the stored tip becomes exactly the
toggled tip, the voter's upvote membership flips, and the voter never
remains in `downvotes`. -/
theorem upvote_ungated (s : State) (v tid : Nat) (tip : Tip)
    (hf : findTip s tid = some tip) :
    (upvote_tip s v tid).map Resp.forbidden = some false ∧
    ((upvote_tip s v tid).map fun r => findTip r.state tid) =
      some (some (applyUpvoteToTip tip v)) ∧
    (v ∈ (applyUpvoteToTip tip v).upvotes ↔ v ∉ tip.upvotes) ∧
    v ∉ (applyUpvoteToTip tip v).downvotes := by
  rw [upvote_tip_eq s v tid tip hf]
  refine ⟨rfl, ?_, ?_, ?_⟩
  · simp only [Option.map_some', Option.some.injEq]
    exact findTip_set s tid tip _ tip.author hf
      (by rw [applyUpvoteToTip_id]; exact findTip_id hf)
  · rw [applyUpvoteToTip_upvotes]
    by_cases h : v ∈ tip.upvotes
    · simp [h, Finset.not_mem_erase]
    · simp [h]
  · rw [applyUpvoteToTip_downvotes]
    exact Finset.not_mem_erase v _

/-- Witness for C8: a voter with reputation 14 (below every gate) still
upvotes without a permission error. -/
theorem upvote_ungated_witness :
    (upvote_tip exDown14 2 0).map Resp.forbidden = some false :=
  (upvote_ungated exDown14 2 0 exTip0 rfl).1

/-- C9 counterexample: user 1 authors `exC9Tip` (0 upvotes, 3 downvotes;
stored reputation 0, consistent with the clamped tally) and is in state
NONE on it; self-upvoting succeeds but leaves the stored reputation at 0,
not an increase of 5. -/
theorem self_upvote_plus5_cex :
    findTip exC9State 0 = some exC9Tip ∧ exC9Tip.author = 1 ∧
    (1 ∉ exC9Tip.upvotes ∧ 1 ∉ exC9Tip.downvotes) ∧
    exC9State.rep 1 = max (userScore exC9State.tips 1) 0 ∧
    ((upvote_tip exC9State 1 0).map fun r => r.state.rep 1) = some 0 ∧
    ((upvote_tip exC9State 1 0).map fun r => r.state.rep 1) ≠
      some (exC9State.rep 1 + 5) :=
  ⟨rfl, rfl, by decide, by decide, by decide, by decide⟩

/-- C9 amended: an author in state NONE on their own tip can upvote it
(there is no self-vote check): the upvote succeeds, adds the author to
the upvoters, and recomputes the author's stored reputation to
`max(raw tally + 5, 0)`; when the stored reputation equals the raw tally
and that tally is non-negative, this is an increase of exactly 5. -/
theorem self_upvote_amended (s : State) (tid : Nat) (tip : Tip)
    (hf : findTip s tid = some tip)
    (hu : tip.author ∉ tip.upvotes) (hd : tip.author ∉ tip.downvotes) :
    (upvote_tip s tip.author tid).map Resp.forbidden = some false ∧
    ((upvote_tip s tip.author tid).map fun r => findTip r.state tid) =
      some (some (applyUpvoteToTip tip tip.author)) ∧
    tip.author ∈ (applyUpvoteToTip tip tip.author).upvotes ∧
    (((upvote_tip s tip.author tid).map fun r => r.state.rep tip.author) =
      some (max (userScore s.tips tip.author + 5) 0)) ∧
    (s.rep tip.author = userScore s.tips tip.author →
      0 ≤ userScore s.tips tip.author →
      ((upvote_tip s tip.author tid).map fun r => r.state.rep tip.author) =
        some (s.rep tip.author + 5)) := by
  have hts : tipScore (applyUpvoteToTip tip tip.author) = tipScore tip + 5 := by
    unfold tipScore
    rw [applyUpvoteToTip_upvotes, applyUpvoteToTip_downvotes, if_neg hu,
      Finset.card_insert_of_not_mem hu, Finset.erase_eq_of_not_mem hd]
    push_cast
    ring
  have hscore :
      userScore (updateTip s.tips tid (applyUpvoteToTip tip tip.author)) tip.author =
        userScore s.tips tip.author + 5 := by
    rw [userScore_updateTip s.tips tid tip _ tip.author hf
      (applyUpvoteToTip_author tip tip.author), if_pos rfl, hts]
    ring
  have hrep : ((upvote_tip s tip.author tid).map fun r => r.state.rep tip.author) =
      some (max (userScore s.tips tip.author + 5) 0) := by
    rw [upvote_tip_eq s tip.author tid tip hf]
    simp only [Option.map_some', Option.some.injEq]
    rw [rep_update_reputation_self]
    dsimp only
    rw [hscore]
  refine ⟨?_, ?_, ?_, hrep, ?_⟩
  · rw [upvote_tip_eq s tip.author tid tip hf]; rfl
  · rw [upvote_tip_eq s tip.author tid tip hf]
    simp only [Option.map_some', Option.some.injEq]
    exact findTip_set s tid tip _ tip.author hf
      (by rw [applyUpvoteToTip_id]; exact findTip_id hf)
  · rw [applyUpvoteToTip_upvotes, if_neg hu]
    exact Finset.mem_insert_self _ _
  · intro hcons hnn
    rw [hrep, hcons]
    congr 1
    exact max_eq_left (by linarith)

/-- Witness for C9 (amended): user 1's tip already has one upvote (raw
tally 5, stored 5); self-upvoting lifts the stored reputation to 10. -/
theorem self_upvote_amended_witness :
    ((upvote_tip exC9W 1 0).map fun r => r.state.rep 1) = some 10 := by
  have h := (self_upvote_amended exC9W 0 exC9WTip rfl (by decide) (by decide)).2.2.2.2
    (by decide) (by decide)
  exact h.trans (by decide)

end LifeProTips
